import Mathlib

/-!
Shallow embedding of `rsz_code/core_rsz/plotting.py` and verification of
its specified behaviour.

Conventions of the embedding:
* Python floats are modelled as exact rationals (`ℚ`); the one place where a
  transcendental function appears (the spatial aspect correction, `np.cos`)
  is modelled over `ℝ`.
* Python dictionaries (`source.mags`, `source.colors`, `source.RS_member`,
  `config.ab_to_vega`, the models dictionary) are association lists; the
  subscript operation `d[k]` is `getItem`, which returns
  `Except.error "KeyError"` when the key is missing, exactly as Python
  raises `KeyError`.  A membership mapping that is "absent entirely"
  (membership not yet computed) is the empty association list, matching the
  source comment "if RS membership hasn't been created yet, the key wont
  exist".
* Functions that can raise run in `Except String`, sequenced by explicit
  `match`, preserving the order in which the Python code evaluates (and
  hence raises).
* Purely cosmetic rendering state (marker size, line widths, legend frames,
  tick sides) is not modelled; the drawn data (coordinates, error bars,
  point colours, axis limits, tick positions, colourbar label) is.
-/

namespace Rsz

/-- A magnitude: value plus uncertainty. -/
structure Magnitude where
  value : ℚ
  error : ℚ
  deriving DecidableEq, Repr

/-- A colour (magnitude difference): value plus symmetric uncertainty. -/
structure SourceColor where
  value : ℚ
  error : ℚ
  deriving DecidableEq, Repr

/-- One catalog detection, as read by `plotting.py`: position, per-band
magnitudes, per-combination colours, the near-center flag and the
(possibly incomplete) red-sequence membership mapping. -/
structure Source where
  ra : ℚ
  dec : ℚ
  mags : List (String × Magnitude)
  colors : List (String × SourceColor)
  near_center : Bool
  RS_member : List (String × Bool)
  deriving DecidableEq, Repr

/-- A cluster: a name and its ordered list of sources. -/
structure Cluster where
  name : String
  sources_list : List Source
  deriving DecidableEq, Repr

/-- The configuration dictionary for one colour combination: the active
colour key, the red and blue band names, and the axis-limit 4-tuple
`(x_min, x_max, y_min, y_max)`. -/
structure Config where
  color : String
  red_band : String
  blue_band : String
  plot_lims : ℚ × ℚ × ℚ × ℚ
  deriving DecidableEq, Repr

/-- Python dictionary subscript `d[k]`: the value when the key is present,
`KeyError` otherwise. -/
def getItem {α : Type} (l : List (String × α)) (k : String) : Except String α :=
  match l.lookup k with
  | some v => Except.ok v
  | none => Except.error "KeyError"

/-- `min(l)` in Python: `ValueError` on an empty sequence, otherwise the
least element. -/
def listMinE : List ℚ → Except String ℚ
  | [] => Except.error "ValueError: min() arg is an empty sequence"
  | x :: xs => Except.ok (xs.foldl min x)

/-- `max(l)` in Python: `ValueError` on an empty sequence, otherwise the
greatest element. -/
def listMaxE : List ℚ → Except String ℚ
  | [] => Except.error "ValueError: max() arg is an empty sequence"
  | x :: xs => Except.ok (xs.foldl max x)

/-- The hex code the source calls `nice_red`. -/
def nice_red : String := "#D62728"

/-! ## The CMD renderer (`cmd`) -/

/-- One call to `ax.errorbar` in `cmd`: x, y, the vertical error bar,
the (absent) horizontal error bar, and the marker colour. -/
structure CMDPoint where
  x : ℚ
  y : ℚ
  yerr : ℚ
  xerr : Option ℚ
  c : String
  deriving DecidableEq, Repr

/-- The axes state produced by `cmd`: the plotted error-bar points and the
axis limits set from the configuration. -/
structure AxesState where
  points : List CMDPoint
  xlim : ℚ × ℚ
  ylim : ℚ × ℚ
  deriving DecidableEq, Repr

/-- The filter predicate of `cmd`'s `valid_sources` comprehension:
`source.near_center and (source.colors[cfg["color"]]).error < 0.2`.
Short-circuits exactly like Python: the colour lookup (which can raise
`KeyError`) only runs when `near_center` is true. -/
def cmdValid (s : Source) (cfg : Config) : Except String Bool :=
  if s.near_center then
    match getItem s.colors cfg.color with
    | Except.error e => Except.error e
    | Except.ok col => Except.ok (decide (col.error < 0.2))
  else
    Except.ok false

/-- The list comprehension `valid_sources = [source for source in
cluster.sources_list if ...]`, evaluating the filter in list order and
propagating the first `KeyError`. -/
def filterE (p : Source → Except String Bool) : List Source → Except String (List Source)
  | [] => Except.ok []
  | s :: rest =>
    match p s with
    | Except.error e => Except.error e
    | Except.ok b =>
      match filterE p rest with
      | Except.error e => Except.error e
      | Except.ok tail => Except.ok (if b then s :: tail else tail)

/-- The body of `cmd`'s plotting loop for one source: look up the red-band
magnitude and the active colour (both can raise `KeyError`), pick red for a
member and black otherwise — a missing membership key is caught
(`except KeyError`) and yields black — and emit the `errorbar` call:
`x=mag`, `y=color.value`, `yerr=color.error`, no `xerr`. -/
def cmdPoint (s : Source) (cfg : Config) : Except String CMDPoint :=
  match getItem s.mags cfg.red_band with
  | Except.error e => Except.error e
  | Except.ok mag =>
    match getItem s.colors cfg.color with
    | Except.error e => Except.error e
    | Except.ok source_color =>
      let point_color :=
        match s.RS_member.lookup cfg.color with
        | some true => nice_red
        | some false => "k"
        | none => "k"
      Except.ok
        { x := mag.value, y := source_color.value, yerr := source_color.error,
          xerr := none, c := point_color }

/-- The plotting loop of `cmd`: one point per valid source, in order,
propagating the first `KeyError`. -/
def mapPointsE (cfg : Config) : List Source → Except String (List CMDPoint)
  | [] => Except.ok []
  | s :: rest =>
    match cmdPoint s cfg with
    | Except.error e => Except.error e
    | Except.ok p =>
      match mapPointsE cfg rest with
      | Except.error e => Except.error e
      | Except.ok tail => Except.ok (p :: tail)

/-- `cmd(cluster, ax, cfg)`: filter to the valid sources, plot one
error-bar point per valid source, then set the axis limits from
`cfg["plot_lims"]`. -/
def cmd (cluster : Cluster) (cfg : Config) : Except String AxesState :=
  match filterE (fun s => cmdValid s cfg) cluster.sources_list with
  | Except.error e => Except.error e
  | Except.ok valid_sources =>
    match mapPointsE cfg valid_sources with
    | Except.error e => Except.error e
    | Except.ok points =>
      Except.ok
        { points := points,
          xlim := (cfg.plot_lims.1, cfg.plot_lims.2.1),
          ylim := (cfg.plot_lims.2.2.1, cfg.plot_lims.2.2.2) }

/-! ### Totalised accessors, used to state theorems about well-keyed sources -/

/-- The active colour's uncertainty, defaulting when the key is absent
(only used in statements under a hypothesis that the key is present). -/
def colorErrD (s : Source) (key : String) : ℚ :=
  ((s.colors.lookup key).getD ⟨0, 0⟩).error

/-- The active colour, defaulting when the key is absent. -/
def colorD (s : Source) (key : String) : SourceColor :=
  (s.colors.lookup key).getD ⟨0, 0⟩

/-- The red-band magnitude, defaulting when the key is absent. -/
def magD (s : Source) (key : String) : Magnitude :=
  (s.mags.lookup key).getD ⟨0, 0⟩

/-- The marker colour `cmd` picks for a source: red for a member,
black otherwise (a missing membership key counts as not a member). -/
def pointColorOf (s : Source) (key : String) : String :=
  match s.RS_member.lookup key with
  | some true => nice_red
  | _ => "k"

/-- The point `cmd` draws for a well-keyed source. -/
def cmdPointD (cfg : Config) (s : Source) : CMDPoint :=
  { x := (magD s cfg.red_band).value, y := (colorD s cfg.color).value,
    yerr := (colorD s cfg.color).error, xerr := none,
    c := pointColorOf s cfg.color }

/-- The inclusion predicate of the CMD path, as a Boolean on well-keyed
sources. -/
def cmdIncludedB (cfg : Config) (s : Source) : Bool :=
  s.near_center && decide (colorErrD s cfg.color < 0.2)

lemma cmdValid_of_some {s : Source} {cfg : Config} {col : SourceColor}
    (hc : s.colors.lookup cfg.color = some col) :
    cmdValid s cfg = Except.ok (cmdIncludedB cfg s) := by
  unfold cmdValid cmdIncludedB getItem colorErrD
  rw [hc]
  cases hnc : s.near_center <;> simp [hnc]

lemma cmdPoint_of_some {s : Source} {cfg : Config} {mag : Magnitude}
    {col : SourceColor}
    (hm : s.mags.lookup cfg.red_band = some mag)
    (hc : s.colors.lookup cfg.color = some col) :
    cmdPoint s cfg = Except.ok (cmdPointD cfg s) := by
  unfold cmdPoint cmdPointD getItem pointColorOf magD colorD
  rw [hm, hc]
  cases hr : List.lookup cfg.color s.RS_member with
  | none => rfl
  | some b => cases b <;> rfl

lemma filterE_of_keyed (cfg : Config) :
    ∀ l : List Source,
      (∀ s ∈ l, (s.colors.lookup cfg.color).isSome) →
      filterE (fun s => cmdValid s cfg) l = Except.ok (l.filter (cmdIncludedB cfg))
  | [], _ => rfl
  | s :: rest, h => by
    obtain ⟨col, hcol⟩ := Option.isSome_iff_exists.mp (h s (by simp))
    have ih := filterE_of_keyed cfg rest (fun t ht => h t (by simp [ht]))
    unfold filterE
    rw [cmdValid_of_some hcol, ih]
    by_cases hb : cmdIncludedB cfg s <;> simp [hb, List.filter_cons]

lemma mapPointsE_of_keyed (cfg : Config) :
    ∀ l : List Source,
      (∀ s ∈ l, (s.colors.lookup cfg.color).isSome ∧
        (s.mags.lookup cfg.red_band).isSome) →
      mapPointsE cfg l = Except.ok (l.map (cmdPointD cfg))
  | [], _ => rfl
  | s :: rest, h => by
    obtain ⟨col, hcol⟩ := Option.isSome_iff_exists.mp (h s (by simp)).1
    obtain ⟨mag, hmag⟩ := Option.isSome_iff_exists.mp (h s (by simp)).2
    have ih := mapPointsE_of_keyed cfg rest (fun t ht => h t (by simp [ht]))
    unfold mapPointsE
    rw [cmdPoint_of_some hmag hcol, ih]
    simp

/-! ## The spatial renderer (`location`) -/

/-- The three scatter layers of `location`: red-sequence members (red),
near-center non-members (dark gray), everything else (light gray). -/
inductive SpatialBucket
  | rs_member
  | center
  | rest
  deriving DecidableEq, Repr

/-- The bucketing of `location`'s loop body:
`if source.RS_member[color]: ... elif source.near_center: ... else: ...`.
Note the membership subscript is NOT guarded by a `try`, so a missing key
raises `KeyError`. -/
def classify_spatial (s : Source) (color : String) : Except String SpatialBucket :=
  match getItem s.RS_member color with
  | Except.error e => Except.error e
  | Except.ok b =>
    if b then Except.ok SpatialBucket.rs_member
    else if s.near_center then Except.ok SpatialBucket.center
    else Except.ok SpatialBucket.rest

/-- `location`'s list-building loop: appends each source's `(ra, dec)` to
the list of its bucket, in catalog order, propagating the first
`KeyError`. -/
def spatialLists (color : String) :
    List Source → Except String (List (ℚ × ℚ) × List (ℚ × ℚ) × List (ℚ × ℚ))
  | [] => Except.ok ([], [], [])
  | s :: rest =>
    match classify_spatial s color with
    | Except.error e => Except.error e
    | Except.ok b =>
      match spatialLists color rest with
      | Except.error e => Except.error e
      | Except.ok (r, c, o) =>
        match b with
        | SpatialBucket.rs_member => Except.ok ((s.ra, s.dec) :: r, c, o)
        | SpatialBucket.center => Except.ok (r, (s.ra, s.dec) :: c, o)
        | SpatialBucket.rest => Except.ok (r, c, (s.ra, s.dec) :: o)

/-- The result of `location`: the three scatter layers and the middle
declination used for the aspect correction. -/
structure LocationPlot where
  rs_member : List (ℚ × ℚ)
  center : List (ℚ × ℚ)
  rest : List (ℚ × ℚ)
  middle_dec : ℚ
  deriving DecidableEq, Repr

/-- `location(cluster, ax, color)`: bucket every source, then compute
`middle_dec = (min(all_decs) + max(all_decs)) / 2` over
`all_decs = rs_member_dec + center_dec + rest_dec` (the source binds
`all_decs` once and passes it to both `min` and `max`; it is written out
twice here); `min` of an empty sequence raises `ValueError`. -/
def location (cluster : Cluster) (color : String) : Except String LocationPlot :=
  match spatialLists color cluster.sources_list with
  | Except.error e => Except.error e
  | Except.ok (rs, cen, others) =>
    match listMinE ((rs.map Prod.snd) ++ (cen.map Prod.snd) ++ (others.map Prod.snd)) with
    | Except.error e => Except.error e
    | Except.ok mn =>
      match listMaxE ((rs.map Prod.snd) ++ (cen.map Prod.snd) ++ (others.map Prod.snd)) with
      | Except.error e => Except.error e
      | Except.ok mx =>
        Except.ok { rs_member := rs, center := cen, rest := others,
                    middle_dec := (mn + mx) / 2 }

/-- The declinations of the three buckets combined, in the order
`location` concatenates them. -/
def allDecs (lp : LocationPlot) : List ℚ :=
  (lp.rs_member.map Prod.snd) ++ (lp.center.map Prod.snd) ++ (lp.rest.map Prod.snd)

/-- The aspect correction `location` sets:
`1.0 / np.cos(abs(middle_dec * np.pi / 180.0))`. -/
noncomputable def aspect_ratio (middle_dec : ℚ) : ℝ :=
  1 / Real.cos |(middle_dec : ℝ) * Real.pi / 180|

/-! ## The dual-axis labeler (`add_vega_labels`) -/

/-- The mirrored (Vega) coordinate ranges created by `ax.twinx()` /
`ax.twiny()`: new tick scales sharing the plot area of the primary axes. -/
structure TwinAxes where
  xlim : ℚ × ℚ
  ylim : ℚ × ℚ
  deriving DecidableEq, Repr

/-- `add_vega_labels(ax, cfg)`.  The offset table `config.ab_to_vega`
lives in `config.py`, outside the plotting module; per the spec it is a
fixed read-only band-name → additive-offset mapping (`Vega = AB + offset`),
so it is passed here explicitly.  The body follows the source: the Vega
x-range adds the blue-band offset to `plot_lims[0]` and the red-band offset
to `plot_lims[1]`; the Vega y-range adds `(blue offset - red offset)` to
both `plot_lims[2]` and `plot_lims[3]`.  The primary axes state is
returned untouched: the source only moves tick marks on it and never
rewrites its data or limits. -/
def add_vega_labels (ab_to_vega : List (String × ℚ)) (ax : AxesState) (cfg : Config) :
    Except String (AxesState × TwinAxes) :=
  match getItem ab_to_vega cfg.blue_band with
  | Except.error e => Except.error e
  | Except.ok offset_blue =>
    match getItem ab_to_vega cfg.red_band with
    | Except.error e => Except.error e
    | Except.ok offset_red =>
      let x_min := cfg.plot_lims.1 + offset_blue
      let x_max := cfg.plot_lims.2.1 + offset_red
      let y_min := cfg.plot_lims.2.2.1 + (offset_blue - offset_red)
      let y_max := cfg.plot_lims.2.2.2 + (offset_blue - offset_red)
      Except.ok (ax, { xlim := (x_min, x_max), ylim := (y_min, y_max) })

/-! ## The model overlay renderer (`add_all_models` / `add_one_model`) -/

/-- Modelled from the spec: an `RSModel` (its class lives outside
`plotting.py`) exposes a function `rs_color` mapping a magnitude to the
predicted red-sequence colour, and a characteristic anchor point
`(mag_point, color_point)`. -/
structure RSModel where
  rs_color : ℚ → ℚ
  mag_point : ℚ
  color_point : ℚ

/-- One `ax.plot` call of `add_one_model`: a two-point line, tagged by the
redshift that selected its colour through the scalar map. -/
structure ModelLine where
  x1 : ℚ
  y1 : ℚ
  x2 : ℚ
  y2 : ℚ
  z : ℚ
  deriving DecidableEq, Repr

/-- The drawn overlay: the model lines and the anchor-point markers
(each tagged by its redshift). -/
structure Overlay where
  lines : List ModelLine
  anchors : List (ℚ × ℚ × ℚ)
  deriving DecidableEq, Repr

/-- The colorbar attached by `add_all_models`: the normalisation domain
`[vmin, vmax]`, the label and the tick positions. -/
structure Colorbar where
  vmin : ℚ
  vmax : ℚ
  label : String
  ticks : List ℚ
  deriving DecidableEq, Repr

/-- `np.arange(start, stop, step)` for positive `step`: the values
`start + i * step` for `0 ≤ i < ⌈(stop - start) / step⌉`; the stop value
itself is excluded. -/
def npArange (start stop step : ℚ) : List ℚ :=
  (List.range (Int.toNat ⌈(stop - start) / step⌉)).map
    (fun i : ℕ => start + step * (i : ℚ))

/-- `add_one_model(ax, rs_model, color)`: one line through the model
evaluated at magnitudes 10 and 30, plus one scatter marker at the model's
anchor point. -/
def add_one_model (ov : Overlay) (rs_model : RSModel) (z : ℚ) : Overlay :=
  { lines := ov.lines ++
      [{ x1 := 10, y1 := rs_model.rs_color 10,
         x2 := 30, y2 := rs_model.rs_color 30, z := z }],
    anchors := ov.anchors ++ [(rs_model.mag_point, rs_model.color_point, z)] }

/-- `add_all_models(fig, ax, steal_axs, cfg, models)`: select the
sub-dictionary for the active colour (`KeyError` if absent), normalise the
colour scale over `[min(models), max(models)]` (iteration over a dict
yields its redshift keys; `ValueError` if empty), draw one model per
redshift via `add_one_model`, then attach the colorbar labeled
`"Redshift"` with ticks `np.arange(0, 3, 0.1)`. -/
def add_all_models (models : List (String × List (ℚ × RSModel))) (cfg : Config) :
    Except String (Overlay × Colorbar) :=
  match getItem models cfg.color with
  | Except.error e => Except.error e
  | Except.ok sub =>
    match listMinE (sub.map Prod.fst) with
    | Except.error e => Except.error e
    | Except.ok vmin =>
      match listMaxE (sub.map Prod.fst) with
      | Except.error e => Except.error e
      | Except.ok vmax =>
        let ov := sub.foldl (fun acc zm => add_one_model acc zm.2 zm.1)
          { lines := [], anchors := [] }
        Except.ok (ov,
          { vmin := vmin, vmax := vmax, label := "Redshift",
            ticks := npArange 0 3 (1/10) })

/-! ## The redshift annotation (`add_redshift`) -/

/-- The two runtime shapes `add_redshift` distinguishes with
`type(redshift) is data.AsymmetricData`: a plain number, or an
`AsymmetricData` value with independent upper and lower errors (its class
lives in `data.py`, outside the plotting module; per the spec it carries
`value`, `upper_error` and `lower_error`). -/
inductive Redshift
  | plain (z : ℚ)
  | asym (value : ℚ) (upper_error : ℚ) (lower_error : ℚ)
  deriving DecidableEq, Repr

/-- Python 3 `round(q)` to an integer: round half to even. -/
def roundHalfEven (q : ℚ) : ℤ :=
  if q - ⌊q⌋ < 1/2 then ⌊q⌋
  else if 1/2 < q - ⌊q⌋ then ⌊q⌋ + 1
  else if 2 ∣ ⌊q⌋ then ⌊q⌋ else ⌊q⌋ + 1

/-- Render `n` hundredths as Python renders the float `n / 100`: always at
least one fractional digit, a trailing zero in the second place dropped. -/
def renderCentiNat (m : ℕ) : String :=
  let ip := toString (m / 100)
  let fr := m % 100
  if fr % 10 == 0 then ip ++ "." ++ toString (fr / 10)
  else if fr < 10 then ip ++ ".0" ++ toString fr
  else ip ++ "." ++ toString fr

/-- `str(round(q, 2))` over exact rationals: round to a whole number of
hundredths (half to even, as Python rounds), then print. -/
def formatRound2 (q : ℚ) : String :=
  let n := roundHalfEven (q * 100)
  if n < 0 then "-" ++ renderCentiNat n.natAbs else renderCentiNat n.natAbs

/-- The label string `add_redshift` stamps in the upper-right corner.
For `AsymmetricData` the source builds brace-wrapped groups
`value = "{" + str(round(redshift.value, 2)) + "}"`,
`upper = "{+" + ... + "}"`, `lower = "{\,-" + ... + "}"` and splices them
into `r"z=$\mathregular{{{value}^{upper}_{lower}}}$"`; for a plain number
it is `"z=" + str(round(redshift, 2))`. -/
def add_redshift_text : Redshift → String
  | Redshift.asym v u l =>
    let value := "\x7b" ++ formatRound2 v ++ "\x7d"
    let upper := "\x7b+" ++ formatRound2 u ++ "\x7d"
    let lower := "\x7b\\,-" ++ formatRound2 l ++ "\x7d"
    "z=$\\mathregular\x7b" ++ value ++ "^" ++ upper ++ "_" ++ lower ++ "\x7d$"
  | Redshift.plain z => "z=" ++ formatRound2 z

/-! ## The CMD point classifier implicit in `cmd` -/

/-- The three display categories of the CMD path. -/
inductive CMDCategory
  | member
  | nonmember
  | excluded
  deriving DecidableEq, Repr

/-- The three-way CMD classification implicit in `cmd`: a source dropped by
the `valid_sources` filter is excluded; a kept source is a member exactly
when its membership flag for the active colour is present and true (drawn
`nice_red`), otherwise a non-member candidate (drawn black). -/
def classify_cmd (s : Source) (cfg : Config) : Except String CMDCategory :=
  match cmdValid s cfg with
  | Except.error e => Except.error e
  | Except.ok false => Except.ok CMDCategory.excluded
  | Except.ok true =>
    match s.RS_member.lookup cfg.color with
    | some true => Except.ok CMDCategory.member
    | _ => Except.ok CMDCategory.nonmember

lemma existsUnique_ok {α : Type} {e : Except String α} {k : α}
    (h : e = Except.ok k) : ∃! x : α, e = Except.ok x :=
  ⟨k, h, fun _ hy => Except.ok.inj (hy.symm.trans h)⟩

lemma classify_cmd_eq {s : Source} {cfg : Config} {col : SourceColor}
    (hc : s.colors.lookup cfg.color = some col) :
    classify_cmd s cfg =
      (if s.near_center && decide (col.error < 0.2) then
        (match s.RS_member.lookup cfg.color with
         | some true => Except.ok CMDCategory.member
         | _ => Except.ok CMDCategory.nonmember)
      else Except.ok CMDCategory.excluded) := by
  have hincl : cmdIncludedB cfg s = (s.near_center && decide (col.error < 0.2)) := by
    unfold cmdIncludedB colorErrD
    rw [hc]
    rfl
  unfold classify_cmd
  rw [cmdValid_of_some hc, hincl]
  cases s.near_center && decide (col.error < 0.2) <;> rfl

lemma classify_spatial_eq {s : Source} {color : String} {m : Bool}
    (hm : s.RS_member.lookup color = some m) :
    classify_spatial s color =
      (if m then Except.ok SpatialBucket.rs_member
       else if s.near_center then Except.ok SpatialBucket.center
       else Except.ok SpatialBucket.rest) := by
  unfold classify_spatial getItem
  rw [hm]

lemma classify_spatial_err {s : Source} {color : String}
    (h : s.RS_member.lookup color = none) :
    classify_spatial s color = Except.error "KeyError" := by
  unfold classify_spatial getItem
  rw [h]

lemma spatialLists_err {color : String} :
    ∀ l : List Source, (∃ s ∈ l, s.RS_member.lookup color = none) →
      spatialLists color l = Except.error "KeyError"
  | [], h => by simp at h
  | s :: rest, h => by
    cases hl : s.RS_member.lookup color with
    | none =>
      unfold spatialLists
      rw [classify_spatial_err hl]
    | some b =>
      obtain ⟨t, ht, hnone⟩ := h
      rcases List.mem_cons.mp ht with rfl | htrest
      · rw [hnone] at hl
        cases hl
      · have ih := spatialLists_err rest ⟨t, htrest, hnone⟩
        unfold spatialLists
        rw [classify_spatial_eq hl, ih]
        cases b <;> cases s.near_center <;> rfl

lemma location_err {cluster : Cluster} {color : String}
    (h : ∃ s ∈ cluster.sources_list, s.RS_member.lookup color = none) :
    location cluster color = Except.error "KeyError" := by
  unfold location
  rw [spatialLists_err cluster.sources_list h]

/-! ## Concrete data shared by witnesses and counterexamples -/

/-- A configuration for the `ch1-ch2` colour. -/
def cfg1 : Config :=
  { color := "ch1-ch2", red_band := "ch2", blue_band := "ch1",
    plot_lims := (18, 23, -1, 1) }

/-- A near-center, low-error, member source. -/
def src_member : Source :=
  { ra := 101, dec := 5, mags := [("ch1", ⟨20, 1/10⟩), ("ch2", ⟨19, 1/10⟩)],
    colors := [("ch1-ch2", ⟨1/2, 1/10⟩)], near_center := true,
    RS_member := [("ch1-ch2", true)] }

/-- A source failing the near-center cut. -/
def src_far : Source :=
  { ra := 102, dec := 6, mags := [("ch1", ⟨21, 1/10⟩), ("ch2", ⟨20, 1/10⟩)],
    colors := [("ch1-ch2", ⟨2/5, 1/10⟩)], near_center := false,
    RS_member := [("ch1-ch2", false)] }

/-- A near-center source whose colour error 0.3 exceeds the threshold. -/
def src_noisy : Source :=
  { ra := 103, dec := 4, mags := [("ch1", ⟨22, 1/10⟩), ("ch2", ⟨21, 1/10⟩)],
    colors := [("ch1-ch2", ⟨3/5, 3/10⟩)], near_center := true,
    RS_member := [("ch1-ch2", false)] }

/-- A three-source cluster exercising all CMD categories. -/
def cluster1 : Cluster := ⟨"test_cluster", [src_member, src_far, src_noisy]⟩

/-- A source whose membership mapping is absent entirely (empty). -/
def src_nomember : Source :=
  { ra := 50, dec := 0, mags := [("ch2", ⟨20, 1/10⟩)],
    colors := [("ch1-ch2", ⟨1/2, 1/10⟩)], near_center := false,
    RS_member := [] }

/-- A near-center source whose membership mapping lacks the active key. -/
def src_nokey : Source :=
  { ra := 60, dec := 2, mags := [("ch2", ⟨21, 1/10⟩)],
    colors := [("ch1-ch2", ⟨1/10, 1/20⟩)], near_center := true,
    RS_member := [("g-r", true)] }

/-! ## Claim C1 -/

/-- C1: `cmd` draws a source if and only if its near-center flag is true
and its colour uncertainty for the active combination is strictly below
0.2: the plotted points are exactly one per source passing that cut, and a
source fails the cut precisely when near-center is false or the error is
at least 0.2. -/
theorem cmd_draws_iff (cluster : Cluster) (cfg : Config)
    (hwf : ∀ s ∈ cluster.sources_list,
      (s.colors.lookup cfg.color).isSome ∧ (s.mags.lookup cfg.red_band).isSome) :
    ∃ ax : AxesState, cmd cluster cfg = Except.ok ax ∧
      ax.points = (cluster.sources_list.filter (cmdIncludedB cfg)).map (cmdPointD cfg) ∧
      (∀ s ∈ cluster.sources_list,
        (s ∈ cluster.sources_list.filter (cmdIncludedB cfg) ↔
          s.near_center = true ∧ colorErrD s cfg.color < 0.2)) := by
  have h1 := filterE_of_keyed cfg cluster.sources_list
    (fun s hs => (hwf s hs).1)
  have h2 := mapPointsE_of_keyed cfg
    (cluster.sources_list.filter (cmdIncludedB cfg))
    (fun s hs => hwf s (List.mem_of_mem_filter hs))
  refine ⟨⟨(cluster.sources_list.filter (cmdIncludedB cfg)).map (cmdPointD cfg),
      (cfg.plot_lims.1, cfg.plot_lims.2.1),
      (cfg.plot_lims.2.2.1, cfg.plot_lims.2.2.2)⟩, ?_, rfl, ?_⟩
  · simp only [cmd, h1, h2]
  · intro s hs
    simp [List.mem_filter, hs, cmdIncludedB]

/-- Witness for C1 at a concrete three-source cluster. -/
theorem cmd_draws_iff_witness :
    ∃ ax : AxesState, cmd cluster1 cfg1 = Except.ok ax ∧
      ax.points = (cluster1.sources_list.filter (cmdIncludedB cfg1)).map (cmdPointD cfg1) ∧
      (∀ s ∈ cluster1.sources_list,
        (s ∈ cluster1.sources_list.filter (cmdIncludedB cfg1) ↔
          s.near_center = true ∧ colorErrD s cfg1.color < 0.2)) :=
  cmd_draws_iff cluster1 cfg1 (by
    intro s hs
    simp only [cluster1, List.mem_cons, List.not_mem_nil, or_false] at hs
    rcases hs with rfl | rfl | rfl <;> exact ⟨rfl, rfl⟩)

/-! ## Claim C10 -/

/-- C10: the point `cmd` draws for a source has x-coordinate equal to the
source's magnitude value in the configuration's red band, a vertical error
bar whose size is the active colour's uncertainty, and no horizontal error
bar. -/
theorem cmd_point_geometry (s : Source) (cfg : Config) (mag : Magnitude)
    (col : SourceColor)
    (hm : s.mags.lookup cfg.red_band = some mag)
    (hc : s.colors.lookup cfg.color = some col) :
    cmdPoint s cfg = Except.ok
      { x := mag.value, y := col.value, yerr := col.error, xerr := none,
        c := pointColorOf s cfg.color } := by
  rw [cmdPoint_of_some hm hc]
  unfold cmdPointD magD colorD
  rw [hm, hc]
  rfl

/-- Witness for C10: the drawn point of `src_member` sits at the `ch2`
(red band) magnitude 19, not the `ch1` magnitude 20, with a vertical-only
error bar of 0.1. -/
theorem cmd_point_geometry_witness :
    cmdPoint src_member cfg1 = Except.ok
      { x := 19, y := 1/2, yerr := 1/10, xerr := none,
        c := pointColorOf src_member cfg1.color } :=
  cmd_point_geometry src_member cfg1 ⟨19, 1/10⟩ ⟨1/2, 1/10⟩ rfl rfl

/-! ## Claim C2 -/

/-- Counterexample to C2 as stated: a cluster whose single source has an
empty membership mapping makes the spatial renderer raise `KeyError`
(`location` has no `try` around `source.RS_member[color]`), so the
"never raises" guarantee fails for the spatial path. -/
theorem missing_membership_cx :
    location ⟨"cx_cluster", [src_nomember]⟩ "ch1-ch2" =
      Except.error "KeyError" := by
  rfl

/-- C2 (amended): in the CMD renderer a source whose membership mapping is
absent or lacks the active key is drawn black and causes no error; in the
spatial renderer, by contrast, any such source makes `location` raise
`KeyError`. -/
theorem missing_membership_policy :
    (∀ (s : Source) (cfg : Config) (mag : Magnitude) (col : SourceColor),
      s.mags.lookup cfg.red_band = some mag →
      s.colors.lookup cfg.color = some col →
      s.RS_member.lookup cfg.color = none →
      cmdPoint s cfg = Except.ok
        { x := mag.value, y := col.value, yerr := col.error, xerr := none,
          c := "k" }) ∧
    (∀ (cluster : Cluster) (color : String),
      (∃ s ∈ cluster.sources_list, s.RS_member.lookup color = none) →
      location cluster color = Except.error "KeyError") := by
  constructor
  · intro s cfg mag col hm hc hr
    rw [cmdPoint_of_some hm hc]
    unfold cmdPointD pointColorOf magD colorD
    rw [hm, hc, hr]
    rfl
  · intro cluster color h
    exact location_err h

/-- Witness for C2 (amended) at a concrete source with an empty membership
mapping: black point on the CMD, `KeyError` from the spatial renderer. -/
theorem missing_membership_policy_witness :
    cmdPoint src_nomember cfg1 = Except.ok
      { x := 20, y := 1/2, yerr := 1/10, xerr := none, c := "k" } ∧
    location ⟨"w_cluster", [src_nomember]⟩ "ch1-ch2" = Except.error "KeyError" :=
  ⟨missing_membership_policy.1 src_nomember cfg1 ⟨20, 1/10⟩ ⟨1/2, 1/10⟩
      rfl rfl rfl,
   missing_membership_policy.2 ⟨"w_cluster", [src_nomember]⟩ "ch1-ch2"
      ⟨src_nomember, by simp, rfl⟩⟩

/-! ## Claim C3 -/

/-- Counterexample to C3 as stated: for a source whose membership mapping
lacks the active key, none of the three spatial buckets holds — the
spatial classifier raises `KeyError` instead of assigning a bucket. -/
theorem classifier_trichotomy_cx :
    classify_spatial src_nokey "ch1-ch2" = Except.error "KeyError" ∧
    classify_spatial src_nokey "ch1-ch2" ≠ Except.ok SpatialBucket.rs_member ∧
    classify_spatial src_nokey "ch1-ch2" ≠ Except.ok SpatialBucket.center ∧
    classify_spatial src_nokey "ch1-ch2" ≠ Except.ok SpatialBucket.rest :=
  ⟨rfl, fun h => Except.noConfusion h, fun h => Except.noConfusion h,
   fun h => Except.noConfusion h⟩

/-- C3 (amended): for every source carrying the active colour key, exactly
one CMD category holds, with the stated characterisations; for every
source whose membership lookup succeeds, exactly one spatial bucket holds,
and membership takes priority over the near-center cut: a member is
bucketed red regardless of its near-center flag (a source whose membership
lookup fails gets no spatial bucket; see the counterexample). -/
theorem classifier_trichotomy (s : Source) (cfg : Config) (col : SourceColor)
    (hc : s.colors.lookup cfg.color = some col) :
    (∃! cat : CMDCategory, classify_cmd s cfg = Except.ok cat) ∧
    (classify_cmd s cfg = Except.ok CMDCategory.member ↔
      (s.near_center = true ∧ col.error < 0.2 ∧
        s.RS_member.lookup cfg.color = some true)) ∧
    (classify_cmd s cfg = Except.ok CMDCategory.nonmember ↔
      (s.near_center = true ∧ col.error < 0.2 ∧
        s.RS_member.lookup cfg.color ≠ some true)) ∧
    (classify_cmd s cfg = Except.ok CMDCategory.excluded ↔
      (s.near_center = false ∨ 0.2 ≤ col.error)) ∧
    (∀ m : Bool, s.RS_member.lookup cfg.color = some m →
      (∃! b : SpatialBucket, classify_spatial s cfg.color = Except.ok b) ∧
      (classify_spatial s cfg.color = Except.ok SpatialBucket.rs_member ↔ m = true) ∧
      (classify_spatial s cfg.color = Except.ok SpatialBucket.center ↔
        (m = false ∧ s.near_center = true)) ∧
      (classify_spatial s cfg.color = Except.ok SpatialBucket.rest ↔
        (m = false ∧ s.near_center = false))) := by
  have hcl := classify_cmd_eq hc
  have hmain : ∀ cat : CMDCategory, classify_cmd s cfg = Except.ok cat →
      (∃! c : CMDCategory, classify_cmd s cfg = Except.ok c) :=
    fun _ hk => existsUnique_ok hk
  refine ⟨?_, ?_, ?_, ?_, ?_⟩
  · cases hn : s.near_center with
    | false =>
      refine hmain CMDCategory.excluded ?_
      rw [hcl]
      simp [hn]
    | true =>
      by_cases he : col.error < 0.2
      · cases hm : s.RS_member.lookup cfg.color with
        | none =>
          refine hmain CMDCategory.nonmember ?_
          rw [hcl]
          simp [hn, he, hm]
        | some b =>
          cases b with
          | false =>
            refine hmain CMDCategory.nonmember ?_
            rw [hcl]
            simp [hn, he, hm]
          | true =>
            refine hmain CMDCategory.member ?_
            rw [hcl]
            simp [hn, he, hm]
      · refine hmain CMDCategory.excluded ?_
        rw [hcl]
        simp [hn, he]
  · rw [hcl]
    cases hn : s.near_center with
    | false => simp [hn]
    | true =>
      by_cases he : col.error < 0.2
      · cases hm : s.RS_member.lookup cfg.color with
        | none => simp [hn, he, hm]
        | some b => cases b <;> simp [hn, he, hm]
      · simp [hn, he]
  · rw [hcl]
    cases hn : s.near_center with
    | false => simp [hn]
    | true =>
      by_cases he : col.error < 0.2
      · cases hm : s.RS_member.lookup cfg.color with
        | none => simp [hn, he, hm]
        | some b => cases b <;> simp [hn, he, hm]
      · simp [hn, he]
  · rw [hcl]
    cases hn : s.near_center with
    | false => simp [hn]
    | true =>
      by_cases he : col.error < 0.2
      · cases hm : s.RS_member.lookup cfg.color with
        | none => simp [hn, he, hm]
        | some b => cases b <;> simp [hn, he, hm]
      · simp [hn, he, not_lt.mp he]
  · intro m hm
    have hsp := classify_spatial_eq hm
    have hspu : ∀ b : SpatialBucket, classify_spatial s cfg.color = Except.ok b →
        (∃! x : SpatialBucket, classify_spatial s cfg.color = Except.ok x) :=
      fun _ hk => existsUnique_ok hk
    refine ⟨?_, ?_, ?_, ?_⟩
    · cases m with
      | true =>
        refine hspu SpatialBucket.rs_member ?_
        rw [hsp]
        simp
      | false =>
        cases hn : s.near_center with
        | true =>
          refine hspu SpatialBucket.center ?_
          rw [hsp]
          simp [hn]
        | false =>
          refine hspu SpatialBucket.rest ?_
          rw [hsp]
          simp [hn]
    · rw [hsp]
      cases m with
      | true => simp
      | false => cases hn : s.near_center <;> simp [hn]
    · rw [hsp]
      cases m with
      | true => simp
      | false => cases hn : s.near_center <;> simp [hn]
    · rw [hsp]
      cases m with
      | true => simp
      | false => cases hn : s.near_center <;> simp [hn]

/-- Witness for C3 at `src_member` (a member that is near-center) showing
both classifiers assign exactly one category, and at `src_far_member`
below the priority instance is exercised separately. -/
theorem classifier_trichotomy_witness :
    (∃! cat : CMDCategory, classify_cmd src_member cfg1 = Except.ok cat) ∧
    (∃! b : SpatialBucket, classify_spatial src_member cfg1.color = Except.ok b) :=
  ⟨(classifier_trichotomy src_member cfg1 ⟨1/2, 1/10⟩ rfl).1,
   ((classifier_trichotomy src_member cfg1 ⟨1/2, 1/10⟩ rfl).2.2.2.2
      true rfl).1⟩

/-! ## Claim C4 -/

lemma getItem_of_some {α : Type} {l : List (String × α)} {k : String} {v : α}
    (h : l.lookup k = some v) : getItem l k = Except.ok v := by
  unfold getItem
  rw [h]

/-- C4: the dual-axis labeler computes the mirrored x-range by adding the
blue-band offset to the x-minimum and the red-band offset to the
x-maximum, and the mirrored y-range by adding the same quantity — blue
offset minus red offset — to both y endpoints; the primary axes state is
returned unchanged. -/
theorem vega_ranges (tbl : List (String × ℚ)) (ax : AxesState) (cfg : Config)
    (offb offr : ℚ)
    (hb : tbl.lookup cfg.blue_band = some offb)
    (hr : tbl.lookup cfg.red_band = some offr) :
    add_vega_labels tbl ax cfg = Except.ok
      (ax,
       { xlim := (cfg.plot_lims.1 + offb, cfg.plot_lims.2.1 + offr),
         ylim := (cfg.plot_lims.2.2.1 + (offb - offr),
                  cfg.plot_lims.2.2.2 + (offb - offr)) }) := by
  unfold add_vega_labels
  rw [getItem_of_some hb, getItem_of_some hr]

/-- A conversion table with distinct offsets for the two bands. -/
def vega_tbl : List (String × ℚ) := [("ch1", -279/100), ("ch2", -326/100)]

/-- An axes state as produced by `cmd` under `cfg1`. -/
def axW : AxesState := { points := [], xlim := (18, 23), ylim := (-1, 1) }

/-- Witness for C4 at the concrete table `vega_tbl`. -/
theorem vega_ranges_witness :
    add_vega_labels vega_tbl axW cfg1 = Except.ok
      (axW,
       { xlim := (18 + (-279/100 : ℚ), 23 + (-326/100 : ℚ)),
         ylim := (-1 + ((-279/100 : ℚ) - (-326/100 : ℚ)),
                  1 + ((-279/100 : ℚ) - (-326/100 : ℚ))) }) :=
  vega_ranges vega_tbl axW cfg1 (-279/100) (-326/100) rfl rfl

/-! ## Claims C5 and C6 -/

lemma foldl_add_one_model :
    ∀ (sub : List (ℚ × RSModel)) (init : Overlay),
      sub.foldl (fun acc zm => add_one_model acc zm.2 zm.1) init =
        { lines := init.lines ++ sub.map (fun zm =>
            { x1 := 10, y1 := zm.2.rs_color 10,
              x2 := 30, y2 := zm.2.rs_color 30, z := zm.1 }),
          anchors := init.anchors ++ sub.map (fun zm =>
            (zm.2.mag_point, zm.2.color_point, zm.1)) }
  | [], init => by simp
  | zm :: rest, init => by
    rw [List.foldl_cons, foldl_add_one_model rest]
    unfold add_one_model
    simp

lemma npArange_0_3_tenth :
    npArange 0 3 (1/10) = (List.range 30).map (fun i : ℕ => (i : ℚ) / 10) := by
  unfold npArange
  rw [show ((3 : ℚ) - 0) / (1/10) = 30 by norm_num]
  rw [show ⌈(30 : ℚ)⌉ = (30 : ℤ) by norm_num]
  rw [show Int.toNat (30 : ℤ) = 30 from rfl]
  refine List.map_congr_left ?_
  intro i _
  ring

lemma three_not_mem_npArange : (3 : ℚ) ∉ npArange 0 3 (1/10) := by
  rw [npArange_0_3_tenth]
  intro hmem
  obtain ⟨i, hi, hv⟩ := List.mem_map.mp hmem
  rw [List.mem_range] at hi
  have h30 : (i : ℚ) = 30 := by
    rw [div_eq_iff (by norm_num : (10 : ℚ) ≠ 0)] at hv
    norm_num at hv
    exact_mod_cast hv
  have : i = 30 := by exact_mod_cast h30
  omega

/-- C5 (amended): the colorbar built by `add_all_models` has normalisation
domain exactly `[min redshift, max redshift]` of the active
sub-collection, label `"Redshift"`, and fixed data-independent tick
positions at the 0.1 step from 0 up to but excluding 3 (the last tick is
2.9, because `np.arange(0, 3, 0.1)` omits its stop value). -/
theorem colorbar_spec (models : List (String × List (ℚ × RSModel)))
    (cfg : Config) (sub : List (ℚ × RSModel)) (vmin vmax : ℚ)
    (hsub : models.lookup cfg.color = some sub)
    (hmin : listMinE (sub.map Prod.fst) = Except.ok vmin)
    (hmax : listMaxE (sub.map Prod.fst) = Except.ok vmax) :
    ∃ ov cb, add_all_models models cfg = Except.ok (ov, cb) ∧
      cb.vmin = vmin ∧ cb.vmax = vmax ∧ cb.label = "Redshift" ∧
      cb.ticks = npArange 0 3 (1/10) ∧
      cb.ticks = (List.range 30).map (fun i : ℕ => (i : ℚ) / 10) ∧
      (3 : ℚ) ∉ cb.ticks := by
  refine ⟨List.foldl (fun acc zm => add_one_model acc zm.2 zm.1)
      { lines := [], anchors := [] } sub,
    { vmin := vmin, vmax := vmax, label := "Redshift",
      ticks := npArange 0 3 (1/10) },
    ?_, rfl, rfl, rfl, rfl, npArange_0_3_tenth, three_not_mem_npArange⟩
  simp only [add_all_models, getItem_of_some hsub, hmin, hmax]

/-- Three models with integer anchor data; the sub-collection holds three
redshift keys. -/
def subW : List (ℚ × RSModel) :=
  [(1, ⟨fun m => m + 1, 18, 19⟩),
   (2, ⟨fun m => m + 2, 18, 20⟩),
   (3, ⟨fun m => m + 3, 18, 21⟩)]

/-- A models dictionary holding `subW` under the active colour key. -/
def modelsW : List (String × List (ℚ × RSModel)) := [("ch1-ch2", subW)]

/-- Witness for C5 (amended) at the concrete collection `modelsW`. -/
theorem colorbar_spec_witness :
    ∃ ov cb, add_all_models modelsW cfg1 = Except.ok (ov, cb) ∧
      cb.vmin = 1 ∧ cb.vmax = 3 ∧ cb.label = "Redshift" ∧
      cb.ticks = npArange 0 3 (1/10) ∧
      cb.ticks = (List.range 30).map (fun i : ℕ => (i : ℚ) / 10) ∧
      (3 : ℚ) ∉ cb.ticks :=
  colorbar_spec modelsW cfg1 subW 1 3 rfl rfl rfl

/-- Following the words of the spec and claim C5: the inclusive 0.1-step
tick sequence running from 0 to 3 (31 positions, ending at 3.0). -/
def specTicks03 : List ℚ := (List.range 31).map (fun i : ℕ => (i : ℚ) / 10)

/-- Counterexample to C5 as stated: at a concrete model collection the
colorbar tick positions are `np.arange(0, 3, 0.1)`, which is not the
inclusive 0-to-3 sequence — 3 is a member of the latter but not a tick. -/
theorem colorbar_spec_cx :
    ((add_all_models modelsW cfg1).toOption.map (fun p => p.2.ticks) =
      some (npArange 0 3 (1/10))) ∧
    npArange 0 3 (1/10) ≠ specTicks03 ∧
    (3 : ℚ) ∈ specTicks03 ∧
    (3 : ℚ) ∉ npArange 0 3 (1/10) := by
  refine ⟨rfl, ?_, ?_, three_not_mem_npArange⟩
  · intro hEq
    have hlen := congrArg List.length hEq
    rw [npArange_0_3_tenth] at hlen
    simp [specTicks03] at hlen
  · refine List.mem_map.mpr ⟨30, List.mem_range.mpr (by norm_num : (30 : ℕ) < 31), by norm_num⟩

/-- C6: `add_all_models` draws, for each redshift key of the active
sub-collection in order, exactly one two-point line obtained by evaluating
that model at magnitudes 10 and 30, plus exactly one anchor marker at
`(mag_point, color_point)`; a sub-collection with n redshifts yields
exactly n lines. -/
theorem model_lines (models : List (String × List (ℚ × RSModel)))
    (cfg : Config) (sub : List (ℚ × RSModel)) (vmin vmax : ℚ)
    (hsub : models.lookup cfg.color = some sub)
    (hmin : listMinE (sub.map Prod.fst) = Except.ok vmin)
    (hmax : listMaxE (sub.map Prod.fst) = Except.ok vmax) :
    ∃ ov cb, add_all_models models cfg = Except.ok (ov, cb) ∧
      ov.lines = sub.map (fun zm =>
        { x1 := 10, y1 := zm.2.rs_color 10,
          x2 := 30, y2 := zm.2.rs_color 30, z := zm.1 }) ∧
      ov.anchors = sub.map (fun zm =>
        (zm.2.mag_point, zm.2.color_point, zm.1)) ∧
      ov.lines.length = sub.length := by
  refine ⟨List.foldl (fun acc zm => add_one_model acc zm.2 zm.1)
      { lines := [], anchors := [] } sub,
    { vmin := vmin, vmax := vmax, label := "Redshift",
      ticks := npArange 0 3 (1/10) }, ?_, ?_, ?_, ?_⟩
  · simp only [add_all_models, getItem_of_some hsub, hmin, hmax]
  · rw [foldl_add_one_model]
    simp
  · rw [foldl_add_one_model]
    simp
  · rw [foldl_add_one_model]
    simp

/-- Witness for C6: three redshift keys yield exactly three lines. -/
theorem model_lines_witness :
    ∃ ov cb, add_all_models modelsW cfg1 = Except.ok (ov, cb) ∧
      ov.lines = subW.map (fun zm =>
        { x1 := 10, y1 := zm.2.rs_color 10,
          x2 := 30, y2 := zm.2.rs_color 30, z := zm.1 }) ∧
      ov.anchors = subW.map (fun zm =>
        (zm.2.mag_point, zm.2.color_point, zm.1)) ∧
      ov.lines.length = subW.length :=
  model_lines modelsW cfg1 subW 1 3 rfl rfl rfl

/-! ## Claim C7 -/

lemma location_ok_inv {cluster : Cluster} {color : String} {lp : LocationPlot}
    (h : location cluster color = Except.ok lp) :
    ∃ mn mx, listMinE (allDecs lp) = Except.ok mn ∧
      listMaxE (allDecs lp) = Except.ok mx ∧
      lp.middle_dec = (mn + mx) / 2 := by
  unfold location at h
  split at h
  · simp at h
  · split at h
    · simp at h
    · split at h
      · simp at h
      · rename_i mx hmx
        have hl := Except.ok.inj h
        subst hl
        rename_i mn hmn heq
        exact ⟨mn, mx, hmn, hmx, rfl⟩

/-- C7: the aspect correction is the reciprocal of the cosine of the
middle declination converted from degrees to radians (the absolute value
the source takes changes nothing, cosine being even); the middle
declination is `(min + max) / 2` over the declinations of the three
buckets combined; and at declination 0 — as for plotted declinations
-10 and 10 — the factor is exactly 1. -/
theorem aspect_correct :
    (∀ d : ℚ, aspect_ratio d = 1 / Real.cos ((d : ℝ) * Real.pi / 180)) ∧
    (∀ (cluster : Cluster) (color : String) (lp : LocationPlot),
      location cluster color = Except.ok lp →
      ∃ mn mx, listMinE (allDecs lp) = Except.ok mn ∧
        listMaxE (allDecs lp) = Except.ok mx ∧
        lp.middle_dec = (mn + mx) / 2) ∧
    aspect_ratio 0 = 1 := by
  refine ⟨?_, fun cluster color lp h => location_ok_inv h, ?_⟩
  · intro d
    unfold aspect_ratio
    rw [Real.cos_abs]
  · unfold aspect_ratio
    norm_num

/-- A member source at declination +10 (it failed the location cut, but
membership wins). -/
def src_dec_pos : Source :=
  { ra := 31, dec := 10, mags := [("ch2", ⟨20, 0⟩)],
    colors := [("ch1-ch2", ⟨0, 0⟩)], near_center := false,
    RS_member := [("ch1-ch2", true)] }

/-- A near-center non-member source at declination -10. -/
def src_dec_neg : Source :=
  { ra := 30, dec := -10, mags := [("ch2", ⟨21, 0⟩)],
    colors := [("ch1-ch2", ⟨0, 0⟩)], near_center := true,
    RS_member := [("ch1-ch2", false)] }

/-- A cluster whose plotted declinations are -10 and 10. -/
def cluster_pm10 : Cluster := ⟨"aspect_cluster", [src_dec_pos, src_dec_neg]⟩

/-- The spatial plot of `cluster_pm10`: one red point, one dark point,
middle declination `(-10 + 10) / 2 = 0`. -/
def lp_pm10 : LocationPlot :=
  { rs_member := [(31, 10)], center := [(30, -10)], rest := [],
    middle_dec := (-10 + 10) / 2 }

/-- Witness for C7 at the cluster with declinations -10 and 10: the
middle declination is 0 and the aspect factor is exactly 1. -/
theorem aspect_correct_witness :
    (∃ mn mx, listMinE (allDecs lp_pm10) = Except.ok mn ∧
      listMaxE (allDecs lp_pm10) = Except.ok mx ∧
      lp_pm10.middle_dec = (mn + mx) / 2) ∧
    lp_pm10.middle_dec = 0 ∧ aspect_ratio 0 = 1 :=
  ⟨aspect_correct.2.1 cluster_pm10 "ch1-ch2" lp_pm10 rfl,
   by norm_num [lp_pm10], aspect_correct.2.2⟩

/-! ## Claim C8 -/

/-- C8: a cluster with zero sources makes the spatial renderer fail with
the empty-sequence `ValueError` from `min(all_decs)` instead of producing
an axes state with an undefined aspect value. -/
theorem empty_cluster_fails (name color : String) :
    location { name := name, sources_list := [] } color =
      Except.error "ValueError: min() arg is an empty sequence" := rfl

/-! ## Claim C9 -/

/-- C9: `add_redshift` renders a plain redshift as `"z="` followed by the
value rounded to two decimals, and an `AsymmetricData` redshift as a
structured label whose central value, upper and lower uncertainties are
each rounded to two decimals, the upper prefixed `+`, the lower prefixed
`-` (after a thin-space), each component wrapped in a brace group; at
value 1.234, upper 0.05, lower 0.03 the components render as 1.23, +0.05
and -0.03. -/
theorem add_redshift_format :
    (∀ z : ℚ, add_redshift_text (Redshift.plain z) = "z=" ++ formatRound2 z) ∧
    (∀ v u l : ℚ, add_redshift_text (Redshift.asym v u l) =
      "z=$\\mathregular\x7b" ++ ("\x7b" ++ formatRound2 v ++ "\x7d") ++ "^" ++
        ("\x7b+" ++ formatRound2 u ++ "\x7d") ++ "_" ++
        ("\x7b\\,-" ++ formatRound2 l ++ "\x7d") ++ "\x7d$") ∧
    formatRound2 (1234/1000) = "1.23" ∧
    formatRound2 (1/20) = "0.05" ∧
    formatRound2 (3/100) = "0.03" ∧
    add_redshift_text (Redshift.asym (1234/1000) (1/20) (3/100)) =
      "z=$\\mathregular\x7b\x7b1.23\x7d^\x7b+0.05\x7d_\x7b\\,-0.03\x7d\x7d$" := by
  have f1 : formatRound2 (1234/1000) = "1.23" := by
    have hr : roundHalfEven ((1234/1000 : ℚ) * 100) = 123 := by
      unfold roundHalfEven
      rw [show ((1234/1000 : ℚ) * 100) = 617/5 by norm_num]
      rw [show ⌊(617/5 : ℚ)⌋ = 123 by norm_num]
      rw [if_pos (by norm_num)]
    unfold formatRound2
    rw [hr]
    rfl
  have f2 : formatRound2 (1/20) = "0.05" := by
    have hr : roundHalfEven ((1/20 : ℚ) * 100) = 5 := by
      unfold roundHalfEven
      rw [show ((1/20 : ℚ) * 100) = 5 by norm_num]
      rw [show ⌊(5 : ℚ)⌋ = 5 by norm_num]
      rw [if_pos (by norm_num)]
    unfold formatRound2
    rw [hr]
    rfl
  have f3 : formatRound2 (3/100) = "0.03" := by
    have hr : roundHalfEven ((3/100 : ℚ) * 100) = 3 := by
      unfold roundHalfEven
      rw [show ((3/100 : ℚ) * 100) = 3 by norm_num]
      rw [show ⌊(3 : ℚ)⌋ = 3 by norm_num]
      rw [if_pos (by norm_num)]
    unfold formatRound2
    rw [hr]
    rfl
  have hasym : ∀ v u l : ℚ, add_redshift_text (Redshift.asym v u l) =
      "z=$\\mathregular\x7b" ++ ("\x7b" ++ formatRound2 v ++ "\x7d") ++ "^" ++
        ("\x7b+" ++ formatRound2 u ++ "\x7d") ++ "_" ++
        ("\x7b\\,-" ++ formatRound2 l ++ "\x7d") ++ "\x7d$" :=
    fun v u l => rfl
  refine ⟨fun z => rfl, hasym, f1, f2, f3, ?_⟩
  rw [hasym, f1, f2, f3]
  rfl

end Rsz
